import Mathlib

/-!
# Verification of the Django library-catalog slice

A shallow embedding, in Lean 4, of the access-control / validation slice of
the `Alx_DjangoLearnLab` repository (apps `bookshelf`, `relationship_app`
and `api`), together with theorems settling the specification claims about
it.

Modelling conventions:
* Python strings are Lean `String`s; `str.strip()` is modelled by `pyStrip`
  over the underlying character list.
* Machine state (the database) is passed explicitly: the Book table is an
  association list from primary key to record, group grants are a function
  from group name to an optional permission set.
* Fallible operations return `Except`; Django form validation collects
  field-keyed error messages.
* Framework primitives actually exercised by the code (form-field cleaning,
  the `permission_required` / `user_passes_test` decorators, DRF permission
  classes) are embedded following Django's documented semantics, since the
  repository's behaviour is decided by how it instantiates them.
-/

namespace LibraryLab

/-- Python `str.strip()` on a character list: drop whitespace from the
front, then from the back. -/
def pyStripList (cs : List Char) : List Char :=
  ((cs.dropWhile Char.isWhitespace).reverse.dropWhile Char.isWhitespace).reverse

/-- Python `str.strip()` on a string. -/
def pyStrip (s : String) : String :=
  String.mk (pyStripList s.data)

/-- Modelled from Django: the field-level cleaning a bound
`forms.CharField` performs before any custom `clean_<field>` hook runs —
`strip=True` strips the raw value, `required=True` rejects an empty result,
and the model-derived `max_length` validator rejects over-long values. -/
def charFieldClean (maxLen : Nat) (raw : String) : Except String String :=
  let v := pyStrip raw
  if v = "" then Except.error "This field is required."
  else if v.length > maxLen then
    Except.error "Ensure this value has at most the declared number of characters."
  else Except.ok v

/-- Common body of `BookForm.clean_title` / `BookForm.clean_author`
(`bookshelf/forms.py`): a falsy value is returned unchanged, otherwise the
value is stripped and rejected when shorter than 2 or longer than the
declared maximum. -/
def cleanStringField (maxLen : Nat) (minMsg maxMsg : String) (value : String) :
    Except String String :=
  if value ≠ "" then
    let t := pyStrip value
    if t.length < 2 then Except.error minMsg
    else if t.length > maxLen then Except.error maxMsg
    else Except.ok t
  else Except.ok value

/-- `BookForm.clean_title` (`bookshelf/forms.py`, lines 56-71). -/
def clean_title : String → Except String String :=
  cleanStringField 200 "Title must be at least 2 characters long."
    "Title must be 200 characters or less."

/-- `BookForm.clean_author` (`bookshelf/forms.py`, lines 73-88). -/
def clean_author : String → Except String String :=
  cleanStringField 100 "Author name must be at least 2 characters long."
    "Author name must be 100 characters or less."

/-- Modelled from Django: field-level cleaning of a required bound
`IntegerField` — a missing/blank submission is rejected, an integer is
passed through (the model declares no range validators; widget `min`/`max`
attributes are client-side only). -/
def integerFieldClean (raw : Option Int) : Except String Int :=
  match raw with
  | none => Except.error "This field is required."
  | some n => Except.ok n

/-- `BookForm.clean_publication_year` (`bookshelf/forms.py`, lines 90-104).
Python's `if publication_year:` is falsy exactly on `0` (and `None`, which
cannot reach this point of the pipeline), so the range check is skipped for
`0`. `currentYear` stands for `datetime.now().year`. -/
def clean_publication_year (currentYear : Int) (y : Int) : Except String Int :=
  if y ≠ 0 then
    if y < 1000 ∨ y > currentYear + 10 then
      Except.error "Publication year must be between 1000 and the current year plus 10."
    else Except.ok y
  else Except.ok y

/-- Full cleaning pipeline for the `title` field of `BookForm`. -/
def titlePipeline (raw : String) : Except String String :=
  (charFieldClean 200 raw).bind clean_title

/-- Full cleaning pipeline for the `author` field of `BookForm`. -/
def authorPipeline (raw : String) : Except String String :=
  (charFieldClean 100 raw).bind clean_author

/-- Full cleaning pipeline for the `publication_year` field of `BookForm`. -/
def yearPipeline (currentYear : Int) (raw : Option Int) : Except String Int :=
  (integerFieldClean raw).bind (clean_publication_year currentYear)

/-- A stored `bookshelf.models.Book` row. -/
structure BookRec where
  title : String
  author : String
  publication_year : Int
deriving DecidableEq, Repr

/-- The raw data a client submits through `BookForm`. -/
structure BookFormData where
  title : String
  author : String
  publication_year : Option Int
deriving DecidableEq, Repr

/-- Error list contributed by one field's pipeline outcome. -/
def fieldErrors (field : String) : Except String α → List (String × String)
  | Except.error m => [(field, m)]
  | Except.ok _ => []

/-- `BookForm.is_valid`/`cleaned_data` (`bookshelf/forms.py`): clean every
field, collecting field-keyed error messages; succeed only when all fields
clean. (`BookForm.clean` adds no cross-field checks.) -/
def bookFormClean (currentYear : Int) (d : BookFormData) :
    Except (List (String × String)) BookRec :=
  let tr := titlePipeline d.title
  let ar := authorPipeline d.author
  let yr := yearPipeline currentYear d.publication_year
  match tr, ar, yr with
  | Except.ok t, Except.ok a, Except.ok y => Except.ok ⟨t, a, y⟩
  | _, _, _ =>
    Except.error (fieldErrors "title" tr ++ fieldErrors "author" ar ++
      fieldErrors "publication_year" yr)

/-! ## Users, role predicates and gating decorators -/

/-- The acting identity as the views see it: Django's
`request.user.is_authenticated`, the set of permission labels granted
through groups, and the role string of the linked `UserProfile` (`none`
when `hasattr(user, 'profile')` is false). -/
structure DjangoUser where
  isAuthenticated : Bool
  perms : List String
  profile : Option String
deriving DecidableEq, Repr

/-- `relationship_app.views.is_admin` (lines 74-78). -/
def is_admin (u : DjangoUser) : Bool :=
  if !u.isAuthenticated then false
  else
    match u.profile with
    | none => false
    | some r => r == "Admin"

/-- `relationship_app.views.is_librarian` (lines 81-85). -/
def is_librarian (u : DjangoUser) : Bool :=
  if !u.isAuthenticated then false
  else
    match u.profile with
    | none => false
    | some r => r == "Librarian"

/-- `relationship_app.views.is_member` (lines 88-92). -/
def is_member (u : DjangoUser) : Bool :=
  if !u.isAuthenticated then false
  else
    match u.profile with
    | none => false
    | some r => r == "Member"

/-- Outcome of one view invocation. `rendered` carries the template and the
form's field-keyed error messages (empty when no bound form is shown);
`forbidden` is Django's `PermissionDenied`, turned into an HTTP 403
response; `redirected` is an HTTP 302 to the given target. -/
inductive ViewResult where
  | rendered (template : String) (errors : List (String × String))
  | redirected (target : String)
  | forbidden
  | notFound
deriving DecidableEq, Repr

/-- Modelled from Django: the `user_passes_test(test)` decorator runs the
wrapped view when `test` passes and otherwise redirects to the login URL
(`settings.LOGIN_URL`, default `/accounts/login/`); it never raises
`PermissionDenied`. -/
def user_passes_test (test : DjangoUser → Bool) (view : DjangoUser → ViewResult)
    (u : DjangoUser) : ViewResult :=
  if test u then view u else ViewResult.redirected "/accounts/login/"

/-- Modelled from Django: `permission_required(perm, raise_exception=True)`
raises `PermissionDenied` (an HTTP 403) when the identity lacks `perm`,
and otherwise runs the wrapped view. -/
def permission_required (perm : String) (view : DjangoUser → ViewResult)
    (u : DjangoUser) : ViewResult :=
  if u.perms.contains perm then view u else ViewResult.forbidden

/-- `relationship_app.views.admin_view` (lines 96-99). -/
def admin_view (u : DjangoUser) : ViewResult :=
  user_passes_test is_admin
    (fun _ => ViewResult.rendered "relationship_app/admin_view.html" []) u

/-- `relationship_app.views.librarian_view` (lines 102-105). -/
def librarian_view (u : DjangoUser) : ViewResult :=
  user_passes_test is_librarian
    (fun _ => ViewResult.rendered "relationship_app/librarian_view.html" []) u

/-- `relationship_app.views.member_view` (lines 108-111). -/
def member_view (u : DjangoUser) : ViewResult :=
  user_passes_test is_member
    (fun _ => ViewResult.rendered "relationship_app/member_view.html" []) u

/-! ## The bookshelf views over an explicit Book table -/

/-- The stored `bookshelf` Book table: primary key to record. -/
abbrev BookStore := List (Nat × BookRec)

/-- HTTP request method as the views branch on it. -/
inductive HttpMethod where
  | GET
  | POST
deriving DecidableEq, Repr

/-- Row lookup by primary key (`Book.objects.get(pk=pk)` /
`get_object_or_404`). -/
def storeGet (s : BookStore) (pk : Nat) : Option BookRec :=
  (s.find? (fun p => p.1 == pk)).map Prod.snd

/-- Fresh autoincrement primary key for an insert. -/
def freshPk (s : BookStore) : Nat :=
  (s.map Prod.fst).foldr max 0 + 1

/-- `bookshelf.views.book_list` (lines 18-47); the search filter only
narrows what is rendered and is irrelevant to the gating claims, so the
rendered template stands for the whole success branch. -/
def book_list (u : DjangoUser) (_s : BookStore) : ViewResult :=
  if u.perms.contains "bookshelf.can_view" then
    ViewResult.rendered "bookshelf/book_list.html" []
  else ViewResult.forbidden

/-- `bookshelf.views.book_detail` (lines 50-62). -/
def book_detail (u : DjangoUser) (pk : Nat) (s : BookStore) : ViewResult :=
  if u.perms.contains "bookshelf.can_view" then
    match storeGet s pk with
    | none => ViewResult.notFound
    | some _ => ViewResult.rendered "bookshelf/book_detail.html" []
  else ViewResult.forbidden

/-- `bookshelf.views.book_create` (lines 65-92): gate on
`bookshelf.can_create`; on POST validate through `BookForm` and only a
valid form reaches `form.save()`; an invalid form re-renders the form
template with its field errors and writes nothing. -/
def book_create (currentYear : Int) (u : DjangoUser) (m : HttpMethod)
    (d : BookFormData) (s : BookStore) : ViewResult × BookStore :=
  if u.perms.contains "bookshelf.can_create" then
    match m with
    | HttpMethod.POST =>
      match bookFormClean currentYear d with
      | Except.ok b =>
        (ViewResult.redirected "bookshelf:book-detail", s ++ [(freshPk s, b)])
      | Except.error errs =>
        (ViewResult.rendered "bookshelf/book_form.html" errs, s)
    | HttpMethod.GET => (ViewResult.rendered "bookshelf/book_form.html" [], s)
  else (ViewResult.forbidden, s)

/-- `bookshelf.views.book_edit` (lines 95-124): gate on
`bookshelf.can_edit`, 404 on a missing row, then the same
validate-before-save discipline as `book_create`. -/
def book_edit (currentYear : Int) (u : DjangoUser) (m : HttpMethod) (pk : Nat)
    (d : BookFormData) (s : BookStore) : ViewResult × BookStore :=
  if u.perms.contains "bookshelf.can_edit" then
    match storeGet s pk with
    | none => (ViewResult.notFound, s)
    | some _ =>
      match m with
      | HttpMethod.POST =>
        match bookFormClean currentYear d with
        | Except.ok b =>
          (ViewResult.redirected "bookshelf:book-detail",
            s.map (fun p => if p.1 = pk then (pk, b) else p))
        | Except.error errs =>
          (ViewResult.rendered "bookshelf/book_form.html" errs, s)
      | HttpMethod.GET => (ViewResult.rendered "bookshelf/book_form.html" [], s)
  else (ViewResult.forbidden, s)

/-- `bookshelf.views.book_delete` (lines 127-139): gate on
`bookshelf.can_delete`, 404 on a missing row, delete only on POST. -/
def book_delete (u : DjangoUser) (m : HttpMethod) (pk : Nat) (s : BookStore) :
    ViewResult × BookStore :=
  if u.perms.contains "bookshelf.can_delete" then
    match storeGet s pk with
    | none => (ViewResult.notFound, s)
    | some _ =>
      match m with
      | HttpMethod.POST =>
        (ViewResult.redirected "bookshelf:book-list",
          s.filter (fun p => p.1 != pk))
      | HttpMethod.GET =>
        (ViewResult.rendered "bookshelf/book_confirm_delete.html" [], s)
  else (ViewResult.forbidden, s)

/-! ## The relationship_app Book CRUD (Author-keyed variant) -/

/-- A stored `relationship_app.models.Book` row (title plus Author foreign
key). -/
structure RelBookRec where
  title : String
  authorId : Nat
deriving DecidableEq, Repr

/-- The relationship_app Book table. -/
abbrev RelBookStore := List (Nat × RelBookRec)

/-- Row lookup by primary key in the relationship_app Book table. -/
def relStoreGet (s : RelBookStore) (pk : Nat) : Option RelBookRec :=
  (s.find? (fun p => p.1 == pk)).map Prod.snd

/-- Fresh autoincrement primary key for the relationship_app Book table. -/
def relFreshPk (s : RelBookStore) : Nat :=
  (s.map Prod.fst).foldr max 0 + 1

/-- `relationship_app.views.BookForm` (fields `title`, `author`): the title
goes through the plain required `CharField` cleaning (max length 200 from
the model), the author choice must name an existing Author row. -/
def relBookFormClean (authors : List Nat) (title : String)
    (authorId : Option Nat) : Except (List (String × String)) RelBookRec :=
  let tr := charFieldClean 200 title
  let ar : Except String Nat :=
    match authorId with
    | none => Except.error "This field is required."
    | some a =>
      if authors.contains a then Except.ok a
      else Except.error "Select a valid choice."
  match tr, ar with
  | Except.ok t, Except.ok a => Except.ok ⟨t, a⟩
  | _, _ => Except.error (fieldErrors "title" tr ++ fieldErrors "author" ar)

/-- `relationship_app.views.add_book` (lines 115-126): gated on
`relationship_app.can_add_book` with `raise_exception=True`. -/
def add_book (u : DjangoUser) (m : HttpMethod) (title : String)
    (authorId : Option Nat) (authors : List Nat) (s : RelBookStore) :
    ViewResult × RelBookStore :=
  if u.perms.contains "relationship_app.can_add_book" then
    match m with
    | HttpMethod.POST =>
      match relBookFormClean authors title authorId with
      | Except.ok b =>
        (ViewResult.redirected "relationship_app:book-list",
          s ++ [(relFreshPk s, b)])
      | Except.error errs =>
        (ViewResult.rendered "relationship_app/book_form.html" errs, s)
    | HttpMethod.GET =>
      (ViewResult.rendered "relationship_app/book_form.html" [], s)
  else (ViewResult.forbidden, s)

/-- `relationship_app.views.edit_book` (lines 129-141): gated on
`relationship_app.can_change_book` with `raise_exception=True`. -/
def edit_book (u : DjangoUser) (m : HttpMethod) (pk : Nat) (title : String)
    (authorId : Option Nat) (authors : List Nat) (s : RelBookStore) :
    ViewResult × RelBookStore :=
  if u.perms.contains "relationship_app.can_change_book" then
    match relStoreGet s pk with
    | none => (ViewResult.notFound, s)
    | some _ =>
      match m with
      | HttpMethod.POST =>
        match relBookFormClean authors title authorId with
        | Except.ok b =>
          (ViewResult.redirected "relationship_app:book-list",
            s.map (fun p => if p.1 = pk then (pk, b) else p))
        | Except.error errs =>
          (ViewResult.rendered "relationship_app/book_form.html" errs, s)
      | HttpMethod.GET =>
        (ViewResult.rendered "relationship_app/book_form.html" [], s)
  else (ViewResult.forbidden, s)

/-- `relationship_app.views.delete_book` (lines 144-155): gated on
`relationship_app.can_delete_book` with `raise_exception=True`. -/
def delete_book (u : DjangoUser) (m : HttpMethod) (pk : Nat)
    (s : RelBookStore) : ViewResult × RelBookStore :=
  if u.perms.contains "relationship_app.can_delete_book" then
    match relStoreGet s pk with
    | none => (ViewResult.notFound, s)
    | some _ =>
      match m with
      | HttpMethod.POST =>
        (ViewResult.redirected "relationship_app:book-list",
          s.filter (fun p => p.1 != pk))
      | HttpMethod.GET =>
        (ViewResult.rendered "relationship_app/book_confirm_delete.html" [], s)
  else (ViewResult.forbidden, s)

/-! ## Profile synchronization signals -/

/-- `relationship_app.models.create_user_profile` (lines 177-181): on a
`post_save` with `created=True`, create a `UserProfile` with role
`Member`. The profile of one user is an `Option` because
`UserProfile.user` is a `OneToOneField` (at most one profile per user); a
freshly created user starts with no profile. -/
def create_user_profile (created : Bool) (profile : Option String) :
    Option String :=
  if created then some "Member" else profile

/-- `relationship_app.models.save_user_profile` (lines 184-190): on every
`post_save`, persist the existing profile if there is one, otherwise create
a default `Member` profile. -/
def save_user_profile (profile : Option String) : Option String :=
  match profile with
  | some r => some r
  | none => some "Member"

/-- One `post_save` dispatch on `CustomUser`: both receivers run, in
registration order. -/
def userPostSave (created : Bool) (profile : Option String) : Option String :=
  save_user_profile (create_user_profile created profile)

/-! ## Group provisioning (`setup_groups` management command) -/

/-- The four custom capabilities `bookshelf.models.Book.Meta.permissions`
registers. -/
inductive BookPerm where
  | can_view
  | can_create
  | can_edit
  | can_delete
deriving DecidableEq, Repr

/-- Group table state: each group name maps to its grant set, `none` when
the group does not exist. -/
structure GroupTable where
  grants : String → Option (Finset BookPerm)

/-- Grant set provisioned for `Viewers`. -/
def viewersPerms : Finset BookPerm := {BookPerm.can_view}

/-- Grant set provisioned for `Editors`. -/
def editorsPerms : Finset BookPerm :=
  {BookPerm.can_view, BookPerm.can_create, BookPerm.can_edit}

/-- Grant set provisioned for `Admins`. -/
def adminsPerms : Finset BookPerm :=
  {BookPerm.can_view, BookPerm.can_create, BookPerm.can_edit,
    BookPerm.can_delete}

/-- `bookshelf.management.commands.setup_groups.Command.handle` (lines
21-74): look up the four Book permissions (failing like
`Permission.objects.get` does when one is not registered), then for each of
the three groups `get_or_create` it, `clear()` its grants and `add` the
listed permissions — i.e. set each group's grant set outright, leaving
every other group untouched. -/
def setup_groups (registry : List String) (st : GroupTable) :
    Except String GroupTable :=
  if "can_view" ∈ registry ∧ "can_create" ∈ registry ∧
      "can_edit" ∈ registry ∧ "can_delete" ∈ registry then
    Except.ok ⟨fun g =>
      if g = "Viewers" then some viewersPerms
      else if g = "Editors" then some editorsPerms
      else if g = "Admins" then some adminsPerms
      else st.grants g⟩
  else Except.error "Permission matching query does not exist."

/-! ## CSP middleware -/

/-- An HTTP request; its content is irrelevant to the middleware. -/
structure HttpRequest where
  path : String
deriving DecidableEq, Repr

/-- An HTTP response with its header dictionary. -/
structure HttpResponse where
  status : Nat
  headers : List (String × String)
  body : String
deriving DecidableEq, Repr

/-- `response[key] = value`: overwrite any existing header with that name. -/
def setHeader (hs : List (String × String)) (k v : String) :
    List (String × String) :=
  hs.filter (fun p => p.1 != k) ++ [(k, v)]

/-- Header lookup. -/
def getHeader (hs : List (String × String)) (k : String) : Option String :=
  (hs.find? (fun p => p.1 == k)).map Prod.snd

/-- The fixed policy string `bookshelf.middleware.CSPMiddleware` builds
(lines 25-33), apostrophes written as `\x27`. -/
def csp_policy : String :=
  "default-src \x27self\x27; script-src \x27self\x27 \x27unsafe-inline\x27; style-src \x27self\x27 \x27unsafe-inline\x27; img-src \x27self\x27 data:; font-src \x27self\x27; connect-src \x27self\x27; frame-ancestors \x27none\x27;"

/-- `bookshelf.middleware.CSPMiddleware.__call__` (lines 20-42): obtain the
wrapped response, then set the four security headers on it. -/
def cspMiddleware (get_response : HttpRequest → HttpResponse)
    (request : HttpRequest) : HttpResponse :=
  let response := get_response request
  let h1 := setHeader response.headers "Content-Security-Policy" csp_policy
  let h2 := setHeader h1 "X-Content-Type-Options" "nosniff"
  let h3 := setHeader h2 "X-Frame-Options" "DENY"
  let h4 := setHeader h3 "X-XSS-Protection" "1; mode=block"
  HttpResponse.mk response.status h4 response.body

/-! ## REST viewset permissions (`api/views.py`) -/

/-- The actions DRF routes to a `ModelViewSet`; `patch` stands for DRF's
partial-update action (PATCH). -/
inductive DrfAction where
  | list
  | retrieve
  | create
  | update
  | patch
  | destroy
deriving DecidableEq, Repr

/-- The two DRF permission classes the viewset uses. -/
inductive PermClass where
  | IsAuthenticated
  | IsAdminUser
deriving DecidableEq, Repr

/-- `api.views.BookViewSet.get_permissions` (lines 41-51): write actions
(`create`, `update`, `partial_update`, `destroy`) demand `IsAdminUser`,
everything else only `IsAuthenticated`. -/
def get_permissions (a : DrfAction) : List PermClass :=
  if a ∈ [DrfAction.create, DrfAction.update, DrfAction.patch,
      DrfAction.destroy] then
    [PermClass.IsAdminUser]
  else [PermClass.IsAuthenticated]

/-! ## Helper lemmas -/

lemma head?_dropWhile_false {p : α → Bool} {l : List α} {a : α}
    (h : (l.dropWhile p).head? = some a) : p a = false := by
  induction l with
  | nil => simp at h
  | cons x xs ih =>
    rw [List.dropWhile_cons] at h
    by_cases hx : p x = true
    · exact ih (by simpa [hx] using h)
    · rw [if_neg hx] at h
      simp only [List.head?_cons, Option.some.injEq] at h
      subst h
      simp only [Bool.not_eq_true] at hx
      exact hx

lemma dropWhile_eq_self_of_head {p : α → Bool} {l : List α}
    (h : ∀ a, l.head? = some a → p a = false) : l.dropWhile p = l := by
  cases l with
  | nil => rfl
  | cons x xs =>
    rw [List.dropWhile_cons]
    simp [h x rfl]

lemma pyStripList_head {cs : List Char} {a : Char}
    (h : (pyStripList cs).head? = some a) : a.isWhitespace = false := by
  unfold pyStripList at h
  have hsuff : ((cs.dropWhile Char.isWhitespace).reverse.dropWhile
      Char.isWhitespace) <:+ (cs.dropWhile Char.isWhitespace).reverse :=
    List.dropWhile_suffix _
  have hpref := (List.reverse_prefix).2 hsuff
  rw [List.reverse_reverse] at hpref
  obtain ⟨t, ht⟩ := hpref
  have : (cs.dropWhile Char.isWhitespace).head? = some a := by
    rw [← ht, List.head?_append, h]
    rfl
  exact head?_dropWhile_false this

/-- Stripping is idempotent: a stripped string has no surrounding
whitespace left to remove. -/
lemma pyStripList_idem (cs : List Char) :
    pyStripList (pyStripList cs) = pyStripList cs := by
  have h1 : (pyStripList cs).dropWhile Char.isWhitespace = pyStripList cs :=
    dropWhile_eq_self_of_head (fun a ha => pyStripList_head ha)
  have h2 : ((cs.dropWhile Char.isWhitespace).reverse.dropWhile
      Char.isWhitespace).dropWhile Char.isWhitespace =
      (cs.dropWhile Char.isWhitespace).reverse.dropWhile Char.isWhitespace :=
    dropWhile_eq_self_of_head (fun a ha => head?_dropWhile_false ha)
  show pyStripList (pyStripList cs) = pyStripList cs
  conv_lhs => rw [pyStripList, h1]
  rw [pyStripList, List.reverse_reverse, h2]

lemma pyStrip_idem (s : String) : pyStrip (pyStrip s) = pyStrip s := by
  show String.mk (pyStripList (pyStripList s.data)) = String.mk (pyStripList s.data)
  rw [pyStripList_idem]

/-- Setting a header makes it readable back. -/
lemma getHeader_setHeader_self (hs : List (String × String)) (k v : String) :
    getHeader (setHeader hs k v) k = some v := by
  unfold getHeader setHeader
  induction hs with
  | nil => simp [List.find?]
  | cons a t ih =>
    by_cases h : a.1 = k
    · rw [List.filter_cons, if_neg (by simp [h])]
      exact ih
    · rw [List.filter_cons]
      have hne : (a.1 != k) = true := by simp [h]
      rw [if_pos hne, List.cons_append, List.find?_cons]
      have : (a.1 == k) = false := by simp [h]
      rw [this]
      exact ih

/-- Setting one header leaves reads of a different header unchanged. -/
lemma getHeader_setHeader_ne (hs : List (String × String)) {k k' : String}
    (v : String) (h : (k' == k) = false) :
    getHeader (setHeader hs k v) k' = getHeader hs k' := by
  have hkk : (k == k') = false := by
    simp only [beq_eq_false_iff_ne] at h ⊢
    exact fun e => h e.symm
  unfold getHeader setHeader
  induction hs with
  | nil => simp [List.find?, hkk]
  | cons a t ih =>
    by_cases ha : a.1 = k
    · rw [List.filter_cons]
      have : (a.1 != k) = false := by simp [ha]
      rw [if_neg (by simp [this])]
      rw [List.find?_cons]
      have : (a.1 == k') = false := by
        rw [ha]
        exact hkk
      rw [this]
      exact ih
    · rw [List.filter_cons]
      have hne : (a.1 != k) = true := by simp [ha]
      rw [if_pos hne, List.cons_append, List.find?_cons, List.find?_cons]
      cases hf : (a.1 == k') with
      | true => rfl
      | false => exact ih

/-- Characterization of the field clean followed by the custom
`clean_<field>` hook for a required, stripped character field with minimum
length 2 and maximum length `maxLen`. -/
lemma stringPipeline_spec (maxLen : Nat) (minMsg maxMsg : String)
    (raw : String) :
    (∀ t, (charFieldClean maxLen raw).bind
        (cleanStringField maxLen minMsg maxMsg) = Except.ok t →
      t = pyStrip raw) ∧
    ((charFieldClean maxLen raw).bind (cleanStringField maxLen minMsg maxMsg)
        = Except.ok (pyStrip raw) ↔
      2 ≤ (pyStrip raw).length ∧ (pyStrip raw).length ≤ maxLen) ∧
    ((pyStrip raw).length < 2 ∨ maxLen < (pyStrip raw).length →
      ∃ m, (charFieldClean maxLen raw).bind
        (cleanStringField maxLen minMsg maxMsg) = Except.error m) := by
  unfold charFieldClean
  by_cases h0 : pyStrip raw = ""
  · have hlen : (pyStrip raw).length = 0 := by rw [h0]; rfl
    rw [if_pos h0]
    refine ⟨?_, ?_, ?_⟩
    · intro t ht
      exact absurd ht (by simp [Except.bind])
    · constructor
      · intro ht
        exact absurd ht (by simp [Except.bind])
      · intro ⟨h2, _⟩
        omega
    · intro _
      exact ⟨"This field is required.", by simp [Except.bind]⟩
  · rw [if_neg h0]
    by_cases h1 : (pyStrip raw).length > maxLen
    · rw [if_pos h1]
      refine ⟨?_, ?_, ?_⟩
      · intro t ht
        exact absurd ht (by simp [Except.bind])
      · constructor
        · intro ht
          exact absurd ht (by simp [Except.bind])
        · intro ⟨_, hle⟩
          omega
      · intro _
        exact ⟨"Ensure this value has at most the declared number of characters.",
          by simp [Except.bind]⟩
    · rw [if_neg h1]
      have hbind : (Except.ok (pyStrip raw) : Except String String).bind
          (cleanStringField maxLen minMsg maxMsg) =
          cleanStringField maxLen minMsg maxMsg (pyStrip raw) := rfl
      rw [hbind]
      unfold cleanStringField
      rw [if_pos (by simpa using h0), pyStrip_idem]
      by_cases h2 : (pyStrip raw).length < 2
      · rw [if_pos h2]
        refine ⟨?_, ?_, ?_⟩
        · intro t ht
          exact absurd ht (by simp)
        · constructor
          · intro ht
            exact absurd ht (by simp)
          · intro ⟨hge, _⟩
            omega
        · intro _
          exact ⟨minMsg, rfl⟩
      · rw [if_neg h2, if_neg (by omega)]
        refine ⟨?_, ?_, ?_⟩
        · intro t ht
          simpa using ht.symm
        · constructor
          · intro _
            omega
          · intro _
            rfl
        · intro hbad
          omega

/-! ## Claim theorems -/

/-- C1: after every `CustomUser` post-save dispatch — whether the write was
a create or an update, and whatever profile state preceded it — exactly one
`UserProfile` is linked to the user, and when no profile existed before the
write (in particular for a user created through a path that never touches
profiles) the one that now exists was auto-created with role `Member`. -/
theorem userPostSave_profile_invariant (created : Bool) (p : Option String) :
    (userPostSave created p).isSome = true ∧
    (p = none → userPostSave created p = some "Member") := by
  cases created <;> cases p <;>
    simp [userPostSave, create_user_profile, save_user_profile]

/-- Witness for C1 at a freshly created user with no profile. -/
theorem userPostSave_profile_invariant_witness :
    (userPostSave true none).isSome = true ∧
    userPostSave true none = some "Member" :=
  ⟨(userPostSave_profile_invariant true none).1,
    (userPostSave_profile_invariant true none).2 rfl⟩

/-- C2 (failing input): the book form accepts `publication_year = 0`
even though `0` lies outside `[1000, currentYear + 10]` — Python's
`if publication_year:` is false at `0`, so the range check in
`clean_publication_year` is skipped. Evaluated here with
`currentYear = 2026` and otherwise valid fields. -/
theorem publication_year_zero_accepted :
    bookFormClean 2026 ⟨"AB", "CD", some 0⟩ =
      Except.ok ⟨"AB", "CD", 0⟩ ∧
    yearPipeline 2026 (some 0) = Except.ok 0 ∧
    ((0 : Int) < 1000 ∨ (0 : Int) > 2026 + 10) :=
  ⟨rfl, rfl, Or.inl (by norm_num)⟩

/-- C7: for every raw title/author string submitted through `BookForm`, any
accepted value is the trimmed input; the trimmed input is accepted exactly
when its length is within `[2, 200]` (title) resp. `[2, 100]` (author); and
a trimmed length below 2 (including whitespace-only input, rejected as
required-field) or above the maximum always yields a validation error. -/
theorem book_form_trims_and_bounds (raw : String) :
    (∀ t, titlePipeline raw = Except.ok t → t = pyStrip raw) ∧
    (titlePipeline raw = Except.ok (pyStrip raw) ↔
      2 ≤ (pyStrip raw).length ∧ (pyStrip raw).length ≤ 200) ∧
    ((pyStrip raw).length < 2 ∨ 200 < (pyStrip raw).length →
      ∃ m, titlePipeline raw = Except.error m) ∧
    (∀ t, authorPipeline raw = Except.ok t → t = pyStrip raw) ∧
    (authorPipeline raw = Except.ok (pyStrip raw) ↔
      2 ≤ (pyStrip raw).length ∧ (pyStrip raw).length ≤ 100) ∧
    ((pyStrip raw).length < 2 ∨ 100 < (pyStrip raw).length →
      ∃ m, authorPipeline raw = Except.error m) := by
  have ht := stringPipeline_spec 200 "Title must be at least 2 characters long."
    "Title must be 200 characters or less." raw
  have ha := stringPipeline_spec 100
    "Author name must be at least 2 characters long."
    "Author name must be 100 characters or less." raw
  exact ⟨ht.1, ht.2.1, ht.2.2, ha.1, ha.2.1, ha.2.2⟩

/-- Witness for C7: `" ab "` is trimmed to `"ab"` and accepted; `"x"` is
rejected because its trimmed length is below 2. -/
theorem book_form_trims_and_bounds_witness :
    titlePipeline " ab " = Except.ok (pyStrip " ab ") ∧
    (∃ m, titlePipeline "x" = Except.error m) :=
  ⟨(book_form_trims_and_bounds " ab ").2.1.mpr (by decide),
    (book_form_trims_and_bounds "x").2.2.1 (by decide)⟩

/-- C8: on the REST `BookViewSet` the demanded permission class is a
function of the action alone — `[IsAdminUser]` exactly on the four write
actions (`create`, `update`, `partial_update` alias `patch`, `destroy`) and
`[IsAuthenticated]` exactly on the read actions (`list`, `retrieve`). -/
theorem get_permissions_action_split (a : DrfAction) :
    (get_permissions a = [PermClass.IsAdminUser] ↔
      (a = DrfAction.create ∨ a = DrfAction.update ∨
        a = DrfAction.patch ∨ a = DrfAction.destroy)) ∧
    (get_permissions a = [PermClass.IsAuthenticated] ↔
      (a = DrfAction.list ∨ a = DrfAction.retrieve)) := by
  cases a <;> decide

/-- C10: the three role predicates are pairwise mutually exclusive, and all
three return `false` (they are total functions, so nothing is raised) on an
unauthenticated user and on a user without a `UserProfile`. -/
theorem role_predicates_exclusive_and_total (u : DjangoUser) :
    (is_admin u && is_librarian u) = false ∧
    (is_admin u && is_member u) = false ∧
    (is_librarian u && is_member u) = false ∧
    (u.isAuthenticated = false →
      is_admin u = false ∧ is_librarian u = false ∧ is_member u = false) ∧
    (u.profile = none →
      is_admin u = false ∧ is_librarian u = false ∧ is_member u = false) := by
  obtain ⟨auth, perms, profile⟩ := u
  cases auth <;> cases profile <;>
    simp_all [is_admin, is_librarian, is_member]

/-- Witness for C10 at an unauthenticated, profile-less user. -/
theorem role_predicates_witness :
    is_admin ⟨false, [], none⟩ = false ∧
    is_librarian ⟨false, [], none⟩ = false ∧
    is_member ⟨false, [], none⟩ = false :=
  (role_predicates_exclusive_and_total ⟨false, [], none⟩).2.2.2.1 rfl

/-- C3: when the four Book capabilities are registered, one run of
`setup_groups` — from any starting group state — succeeds and leaves
Viewers, Editors and Admins with exactly the specified grant sets, touches
no other group, and a second run returns the very same state (idempotence,
hence any further runs change nothing). -/
theorem setup_groups_provisions_and_idempotent (registry : List String)
    (st : GroupTable)
    (hv : "can_view" ∈ registry) (hc : "can_create" ∈ registry)
    (he : "can_edit" ∈ registry) (hd : "can_delete" ∈ registry) :
    ∃ st1, setup_groups registry st = Except.ok st1 ∧
      st1.grants "Viewers" = some viewersPerms ∧
      st1.grants "Editors" = some editorsPerms ∧
      st1.grants "Admins" = some adminsPerms ∧
      (∀ g, g ≠ "Viewers" → g ≠ "Editors" → g ≠ "Admins" →
        st1.grants g = st.grants g) ∧
      setup_groups registry st1 = Except.ok st1 := by
  refine ⟨⟨fun g =>
      if g = "Viewers" then some viewersPerms
      else if g = "Editors" then some editorsPerms
      else if g = "Admins" then some adminsPerms
      else st.grants g⟩, ?_, ?_, ?_, ?_, ?_, ?_⟩
  · unfold setup_groups
    rw [if_pos ⟨hv, hc, he, hd⟩]
  · simp
  · show (if ("Editors" : String) = "Viewers" then some viewersPerms
      else if ("Editors" : String) = "Editors" then some editorsPerms
      else if ("Editors" : String) = "Admins" then some adminsPerms
      else st.grants "Editors") = some editorsPerms
    rw [if_neg (by decide), if_pos rfl]
  · show (if ("Admins" : String) = "Viewers" then some viewersPerms
      else if ("Admins" : String) = "Editors" then some editorsPerms
      else if ("Admins" : String) = "Admins" then some adminsPerms
      else st.grants "Admins") = some adminsPerms
    rw [if_neg (by decide), if_neg (by decide), if_pos rfl]
  · intro g h1 h2 h3
    show (if g = "Viewers" then some viewersPerms
      else if g = "Editors" then some editorsPerms
      else if g = "Admins" then some adminsPerms
      else st.grants g) = st.grants g
    rw [if_neg h1, if_neg h2, if_neg h3]
  · unfold setup_groups
    rw [if_pos ⟨hv, hc, he, hd⟩]
    congr 1
    apply congrArg GroupTable.mk
    funext g
    by_cases h1 : g = "Viewers"
    · simp [h1]
    · by_cases h2 : g = "Editors"
      · simp [h1, h2]
      · by_cases h3 : g = "Admins"
        · simp [h1, h2, h3]
        · simp [h1, h2, h3]

/-- Witness for C3 starting from an empty group table. -/
theorem setup_groups_witness :
    ∃ st1, setup_groups ["can_view", "can_create", "can_edit", "can_delete"]
        ⟨fun _ => none⟩ = Except.ok st1 ∧
      st1.grants "Viewers" = some viewersPerms ∧
      st1.grants "Editors" = some editorsPerms ∧
      st1.grants "Admins" = some adminsPerms ∧
      (∀ g, g ≠ "Viewers" → g ≠ "Editors" → g ≠ "Admins" →
        st1.grants g = (none : Option (Finset BookPerm))) ∧
      setup_groups ["can_view", "can_create", "can_edit", "can_delete"] st1 =
        Except.ok st1 :=
  setup_groups_provisions_and_idempotent
    ["can_view", "can_create", "can_edit", "can_delete"] ⟨fun _ => none⟩
    (by decide) (by decide) (by decide) (by decide)

/-- C4 (counterexample): an authenticated Member requesting the role-gated
`admin_view` is redirected to the login URL — `user_passes_test` never
produces an HTTP 403 — contradicting the claim that every gated catalog
operation rejects with a 403-equivalent rather than a redirect. -/
theorem admin_view_redirects_on_failure :
    admin_view ⟨true, [], some "Member"⟩ =
      ViewResult.redirected "/accounts/login/" ∧
    admin_view ⟨true, [], some "Member"⟩ ≠ ViewResult.forbidden := by
  refine ⟨rfl, ?_⟩
  decide

/-- C4 (amended): every capability-gated Book CRUD view — the four
`bookshelf` views and the three `relationship_app` views, all decorated
`permission_required(..., raise_exception=True)` — rejects an identity
lacking the capability with an HTTP 403-equivalent (`PermissionDenied`) and
leaves the store untouched; the role-gated Admin/Librarian/Member views
instead reject a failing identity with a redirect to the login URL. -/
theorem access_gate_rejection (u : DjangoUser) (m : HttpMethod) (pk : Nat)
    (d : BookFormData) (s : BookStore) (cy : Int) (t : String)
    (aid : Option Nat) (authors : List Nat) (rs : RelBookStore) :
    (u.perms.contains "bookshelf.can_view" = false →
      book_list u s = ViewResult.forbidden ∧
      book_detail u pk s = ViewResult.forbidden) ∧
    (u.perms.contains "bookshelf.can_create" = false →
      book_create cy u m d s = (ViewResult.forbidden, s)) ∧
    (u.perms.contains "bookshelf.can_edit" = false →
      book_edit cy u m pk d s = (ViewResult.forbidden, s)) ∧
    (u.perms.contains "bookshelf.can_delete" = false →
      book_delete u m pk s = (ViewResult.forbidden, s)) ∧
    (u.perms.contains "relationship_app.can_add_book" = false →
      add_book u m t aid authors rs = (ViewResult.forbidden, rs)) ∧
    (u.perms.contains "relationship_app.can_change_book" = false →
      edit_book u m pk t aid authors rs = (ViewResult.forbidden, rs)) ∧
    (u.perms.contains "relationship_app.can_delete_book" = false →
      delete_book u m pk rs = (ViewResult.forbidden, rs)) ∧
    (is_admin u = false →
      admin_view u = ViewResult.redirected "/accounts/login/") ∧
    (is_librarian u = false →
      librarian_view u = ViewResult.redirected "/accounts/login/") ∧
    (is_member u = false →
      member_view u = ViewResult.redirected "/accounts/login/") := by
  refine ⟨?_, ?_, ?_, ?_, ?_, ?_, ?_, ?_, ?_, ?_⟩
  · intro h
    constructor
    · unfold book_list
      rw [if_neg (by rw [h]; exact Bool.false_ne_true)]
    · unfold book_detail
      rw [if_neg (by rw [h]; exact Bool.false_ne_true)]
  · intro h
    unfold book_create
    rw [if_neg (by rw [h]; exact Bool.false_ne_true)]
  · intro h
    unfold book_edit
    rw [if_neg (by rw [h]; exact Bool.false_ne_true)]
  · intro h
    unfold book_delete
    rw [if_neg (by rw [h]; exact Bool.false_ne_true)]
  · intro h
    unfold add_book
    rw [if_neg (by rw [h]; exact Bool.false_ne_true)]
  · intro h
    unfold edit_book
    rw [if_neg (by rw [h]; exact Bool.false_ne_true)]
  · intro h
    unfold delete_book
    rw [if_neg (by rw [h]; exact Bool.false_ne_true)]
  · intro h
    unfold admin_view user_passes_test
    rw [if_neg (by rw [h]; exact Bool.false_ne_true)]
  · intro h
    unfold librarian_view user_passes_test
    rw [if_neg (by rw [h]; exact Bool.false_ne_true)]
  · intro h
    unfold member_view user_passes_test
    rw [if_neg (by rw [h]; exact Bool.false_ne_true)]

/-- Witness for C4 (amended) at an authenticated permission-less user. -/
theorem access_gate_rejection_witness :
    book_list ⟨true, [], none⟩ [] = ViewResult.forbidden ∧
    book_delete ⟨true, [], none⟩ HttpMethod.POST 1 [] =
      (ViewResult.forbidden, []) ∧
    admin_view ⟨true, [], none⟩ = ViewResult.redirected "/accounts/login/" :=
  ⟨((access_gate_rejection ⟨true, [], none⟩ HttpMethod.POST 1 ⟨"", "", none⟩
      [] 2026 "" none [] []).1 rfl).1,
    (access_gate_rejection ⟨true, [], none⟩ HttpMethod.POST 1 ⟨"", "", none⟩
      [] 2026 "" none [] []).2.2.2.1 rfl,
    (access_gate_rejection ⟨true, [], none⟩ HttpMethod.POST 1 ⟨"", "", none⟩
      [] 2026 "" none [] []).2.2.2.2.2.2.2.1 rfl⟩

/-- C5: an identity without `bookshelf.can_delete` invoking `book_delete`
— with any method, any primary key, any store — gets the 403-equivalent
`PermissionDenied` outcome and the Book table (in particular its row
count) is unchanged; it can never delete a Book. -/
theorem book_delete_blocked_without_can_delete (u : DjangoUser)
    (m : HttpMethod) (pk : Nat) (s : BookStore)
    (h : u.perms.contains "bookshelf.can_delete" = false) :
    book_delete u m pk s = (ViewResult.forbidden, s) ∧
    (book_delete u m pk s).2 = s ∧
    (book_delete u m pk s).2.length = s.length := by
  have hb : book_delete u m pk s = (ViewResult.forbidden, s) := by
    unfold book_delete
    rw [if_neg (by rw [h]; exact Bool.false_ne_true)]
  exact ⟨hb, by rw [hb], by rw [hb]⟩

/-- Witness for C5: a permission-less user POSTing a delete of an existing
row. -/
theorem book_delete_blocked_witness :
    book_delete ⟨true, [], none⟩ HttpMethod.POST 1 [(1, ⟨"AB", "CD", 2000⟩)] =
      (ViewResult.forbidden, [(1, ⟨"AB", "CD", 2000⟩)]) ∧
    (book_delete ⟨true, [], none⟩ HttpMethod.POST 1
      [(1, ⟨"AB", "CD", 2000⟩)]).2 = [(1, ⟨"AB", "CD", 2000⟩)] ∧
    (book_delete ⟨true, [], none⟩ HttpMethod.POST 1
      [(1, ⟨"AB", "CD", 2000⟩)]).2.length =
      ([(1, ⟨"AB", "CD", 2000⟩)] : BookStore).length :=
  book_delete_blocked_without_can_delete ⟨true, [], none⟩ HttpMethod.POST 1
    [(1, ⟨"AB", "CD", 2000⟩)] rfl

/-- C6: when `BookForm` validation rejects the submitted fields, no write
reaches the Book table — neither `book_create` nor `book_edit` changes the
store — and (when the request passes the permission gate and, for edit,
the row exists) the operation reports the field-level error messages back
through the re-rendered form. -/
theorem validation_precedes_persistence (cy : Int) (u : DjangoUser)
    (d : BookFormData) (pk : Nat) (s : BookStore)
    (errs : List (String × String))
    (h : bookFormClean cy d = Except.error errs) :
    (book_create cy u HttpMethod.POST d s).2 = s ∧
    (u.perms.contains "bookshelf.can_create" = true →
      book_create cy u HttpMethod.POST d s =
        (ViewResult.rendered "bookshelf/book_form.html" errs, s)) ∧
    (book_edit cy u HttpMethod.POST pk d s).2 = s ∧
    (u.perms.contains "bookshelf.can_edit" = true → storeGet s pk ≠ none →
      book_edit cy u HttpMethod.POST pk d s =
        (ViewResult.rendered "bookshelf/book_form.html" errs, s)) := by
  refine ⟨?_, ?_, ?_, ?_⟩
  · unfold book_create
    by_cases hc : u.perms.contains "bookshelf.can_create" = true
    · rw [if_pos hc]
      simp [h]
    · rw [if_neg hc]
  · intro hc
    unfold book_create
    rw [if_pos hc]
    simp [h]
  · unfold book_edit
    by_cases hc : u.perms.contains "bookshelf.can_edit" = true
    · rw [if_pos hc]
      cases hg : storeGet s pk <;> simp [hg, h]
    · rw [if_neg hc]
  · intro hc hg
    unfold book_edit
    rw [if_pos hc]
    cases hgg : storeGet s pk with
    | none => exact absurd hgg hg
    | some b => simp [hgg, h]

/-- Witness for C6: a too-short title is rejected; nothing is written and
the title's error message is reported. -/
theorem validation_precedes_persistence_witness :
    (book_create 2026 ⟨true, ["bookshelf.can_create", "bookshelf.can_edit"],
      none⟩ HttpMethod.POST ⟨"A", "CD", some 2000⟩
      [(1, ⟨"AB", "CD", 2000⟩)]).2 = [(1, ⟨"AB", "CD", 2000⟩)] ∧
    book_create 2026 ⟨true, ["bookshelf.can_create", "bookshelf.can_edit"],
      none⟩ HttpMethod.POST ⟨"A", "CD", some 2000⟩ [(1, ⟨"AB", "CD", 2000⟩)] =
      (ViewResult.rendered "bookshelf/book_form.html"
        [("title", "Title must be at least 2 characters long.")],
        [(1, ⟨"AB", "CD", 2000⟩)]) :=
  ⟨(validation_precedes_persistence 2026
      ⟨true, ["bookshelf.can_create", "bookshelf.can_edit"], none⟩
      ⟨"A", "CD", some 2000⟩ 1 [(1, ⟨"AB", "CD", 2000⟩)]
      [("title", "Title must be at least 2 characters long.")] rfl).1,
    (validation_precedes_persistence 2026
      ⟨true, ["bookshelf.can_create", "bookshelf.can_edit"], none⟩
      ⟨"A", "CD", some 2000⟩ 1 [(1, ⟨"AB", "CD", 2000⟩)]
      [("title", "Title must be at least 2 characters long.")] rfl).2.1 rfl⟩

/-- C9: whatever the request and whatever response the wrapped application
returns, the response leaving `CSPMiddleware` carries the fixed
Content-Security-Policy value and the three anti-XSS/anti-clickjacking
headers. -/
theorem cspMiddleware_sets_security_headers
    (get_response : HttpRequest → HttpResponse) (request : HttpRequest) :
    getHeader (cspMiddleware get_response request).headers
      "Content-Security-Policy" = some csp_policy ∧
    getHeader (cspMiddleware get_response request).headers
      "X-Content-Type-Options" = some "nosniff" ∧
    getHeader (cspMiddleware get_response request).headers
      "X-Frame-Options" = some "DENY" ∧
    getHeader (cspMiddleware get_response request).headers
      "X-XSS-Protection" = some "1; mode=block" := by
  simp only [cspMiddleware]
  refine ⟨?_, ?_, ?_, ?_⟩
  · rw [getHeader_setHeader_ne _ _ (by decide),
      getHeader_setHeader_ne _ _ (by decide),
      getHeader_setHeader_ne _ _ (by decide), getHeader_setHeader_self]
  · rw [getHeader_setHeader_ne _ _ (by decide),
      getHeader_setHeader_ne _ _ (by decide), getHeader_setHeader_self]
  · rw [getHeader_setHeader_ne _ _ (by decide), getHeader_setHeader_self]
  · rw [getHeader_setHeader_self]

end LibraryLab
